import Mathlib

set_option maxHeartbeats 1600000

/-!
Shallow embedding of `src/libs/hwui/renderthread/DrawFrameTask.cpp`
(Android hwui render-thread frame synchronization).

Modelling conventions:

* `int64_t` / `nsecs_t` values are modelled as `Int`.  Signed overflow is
  undefined behaviour in C++, so the unbounded `Int` model covers every
  defined execution; `/` on `int64_t` truncates toward zero and is modelled
  by `Int.tdiv`.
* Pointers held by the task (`mContext`, `mRenderThread`) are modelled by
  their nullness (`Bool`, `true` = non-null); `DeferredLayerUpdater*`
  handles in `mLayers` are modelled as `Nat` identities (the code compares
  them only by pointer identity).
* The external collaborators (`CanvasContext`, `RenderThread`, the clock)
  are oracles: an `Env` record packages every value the environment hands
  back during one `run` (`hasSurface()`, `makeCurrent()`, the outputs that
  `prepareTree` writes into the `TreeInfo`, the duration returned by
  `draw()`, and the `systemTime` readings).
* Externally visible effects of one `run` (signalling the producer's
  condition variable, `draw()`, `waitOnFences()`, firing the two
  hint-session callbacks, handing off the frame callbacks) are recorded in
  an event trace, in program order.
-/

/-- Frame info slots used by `DrawFrameTask` (`mFrameInfo` is a fixed-layout
`int64_t` array; only the named slots read by this file are modelled). -/
structure FrameInfo where
  vsync : Int
  intendedVsync : Int
  frameDeadline : Int
  frameInterval : Int
  frameTimelineVsyncId : Int
  frameStartTime : Int
  deriving DecidableEq, Repr

/-- Modelled from the spec: the `SyncResult` enum lives in `DrawFrameTask.h`,
which is not among the sources; the spec describes it as a bitmask of
independent flags with `OK = 0`, so the four flags are modelled as distinct
single-bit masks. -/
def SyncResult.OK : Nat := 0

/-- Flag set when tree preparation reported animations plus a required UI
redraw. -/
def SyncResult.UIRedrawRequired : Nat := 1

/-- Flag set when the context has no surface. -/
def SyncResult.LostSurfaceRewardIfFound : Nat := 2

/-- Flag set when a surface exists but `makeCurrent()` failed. -/
def SyncResult.ContextIsStopped : Nat := 4

/-- Flag set when the frame cannot be drawn. -/
def SyncResult.FrameDropped : Nat := 8

/-- Bitmask membership: `r` contains flag `f` (bitwise AND is non-zero). -/
def SyncResult.hasFlag (r f : Nat) : Bool := r &&& f ≠ 0

/-- State of one `DrawFrameTask` instance (the members of the C++ class that
this file reads or writes).  Callbacks are modelled by whether the slot is
non-empty. -/
structure DrawFrameTask where
  mRenderThread : Bool
  mContext : Bool
  mTargetNode : Bool
  mLayers : List Nat
  mContentDrawBounds : Int × Int × Int × Int
  mSyncResult : Nat
  mSyncQueued : Int
  mFrameInfo : FrameInfo
  mFrameCallback : Bool
  mFrameCompleteCallback : Bool
  mUpdateTargetWorkDuration : Bool
  mReportActualWorkDuration : Bool
  mLastTargetWorkDuration : Int
  mLastDequeueBufferDuration : Int
  deriving DecidableEq, Repr

/-- Responses of the external collaborators observed during one `run`
(`CanvasContext`, the `TreeInfo` outputs of `prepareTree`, the clock). -/
structure Env where
  hasSurface : Bool
  makeCurrentOk : Bool
  prepareCanDraw : Bool
  hasAnimations : Bool
  requiresUiRedraw : Bool
  prepareTextures : Bool
  drawDuration : Int
  now0 : Int
  now1 : Int
  now2 : Int
  deriving DecidableEq, Repr

/-- Externally visible effects of one `run`, in program order. -/
inductive Event where
  | addFrameCompleteListener
  | unblockUiThread
  | enqueueFrameWork
  | draw
  | waitOnFences
  | updateTargetWorkDuration (d : Int)
  | reportActualWorkDuration (d : Int)
  deriving DecidableEq, Repr

/-- Recognizer for the producer-release signal event. -/
def Event.isUnblock : Event → Bool
  | .unblockUiThread => true
  | _ => false

/-- Recognizer for the draw event. -/
def Event.isDraw : Event → Bool
  | .draw => true
  | _ => false

/-- Recognizer for the draw-or-fence-wait step (exactly one of the two
happens per run, between the two candidate release points). -/
def Event.isDrawOrWait : Event → Bool
  | .draw => true
  | .waitOnFences => true
  | _ => false

/-- `DrawFrameTask::DrawFrameTask()` together with the in-class member
initializers of the header (estimator scalars start at 0, callback slots
empty, queue empty). -/
def DrawFrameTask.init : DrawFrameTask where
  mRenderThread := false
  mContext := false
  mTargetNode := false
  mLayers := []
  mContentDrawBounds := (0, 0, 0, 0)
  mSyncResult := SyncResult.OK
  mSyncQueued := 0
  mFrameInfo := ⟨0, 0, 0, 0, 0, 0⟩
  mFrameCallback := false
  mFrameCompleteCallback := false
  mUpdateTargetWorkDuration := false
  mReportActualWorkDuration := false
  mLastTargetWorkDuration := 0
  mLastDequeueBufferDuration := 0

/-- `DrawFrameTask::setContext` (lines 42-47). -/
def setContext (t : DrawFrameTask) (thread context targetNode : Bool) : DrawFrameTask :=
  { t with mRenderThread := thread, mContext := context, mTargetNode := targetNode }

/-- `DrawFrameTask::setHintSessionCallbacks` (lines 49-53). -/
def setHintSessionCallbacks (t : DrawFrameTask) (updateTarget reportActual : Bool) :
    DrawFrameTask :=
  { t with mUpdateTargetWorkDuration := updateTarget, mReportActualWorkDuration := reportActual }

/-- `DrawFrameTask::pushLayerUpdate` (lines 55-65).  `none` models the
`LOG_ALWAYS_FATAL_IF(!mContext, ...)` process abort; otherwise the handle is
appended unless an entry with the same identity is already present. -/
def pushLayerUpdate (t : DrawFrameTask) (layer : Nat) : Option DrawFrameTask :=
  if t.mContext = false then none
  else if t.mLayers.contains layer then some t
  else some { t with mLayers := t.mLayers ++ [layer] }

/-- Loop of `DrawFrameTask::removeLayerUpdate` (lines 68-73): erase the first
entry with the given identity, leave the rest untouched. -/
def removeFirstMatch : List Nat → Nat → List Nat
  | [], _ => []
  | x :: xs, layer => if x = layer then xs else x :: removeFirstMatch xs layer

/-- `DrawFrameTask::removeLayerUpdate` (lines 67-74).  The source performs no
context check here, so the fatal path (`none`) is never taken. -/
def removeLayerUpdate (t : DrawFrameTask) (layer : Nat) : Option DrawFrameTask :=
  some { t with mLayers := removeFirstMatch t.mLayers layer }

/-- Result of `DrawFrameTask::syncFrameState`: the updated task, the
`info.out.canDrawThisFrame` the caller reads back, and the C++ return value
(`info.prepareTextures`). -/
structure SyncOutput where
  task : DrawFrameTask
  canDrawThisFrame : Bool
  ret : Bool
  deriving DecidableEq, Repr

/-- `DrawFrameTask::syncFrameState` (lines 165-206): feed vsync data to the
time lord, `makeCurrent`, apply and clear the queued layer updates, push the
content bounds, `prepareTree`, then fold the drawability conditions into
`mSyncResult` and return `info.prepareTextures`.  `env.prepareCanDraw` is the
value of `info.out.canDrawThisFrame` after `prepareTree` ran. -/
def syncFrameState (t : DrawFrameTask) (env : Env) : SyncOutput :=
  let canDraw := env.makeCurrentOk
  let t1 : DrawFrameTask := { t with mLayers := [] }
  let sr0 := t1.mSyncResult
  let srCanDraw :=
    if !env.hasSurface || !canDraw then
      (if !env.hasSurface then (sr0 ||| SyncResult.LostSurfaceRewardIfFound, false)
       else (sr0 ||| SyncResult.ContextIsStopped, false))
    else (sr0, env.prepareCanDraw)
  let sr1 := srCanDraw.1
  let canDrawThisFrame := srCanDraw.2
  let sr2 :=
    if env.hasAnimations && env.requiresUiRedraw then sr1 ||| SyncResult.UIRedrawRequired
    else sr1
  let sr3 := if !canDrawThisFrame then sr2 ||| SyncResult.FrameDropped else sr2
  { task := { t1 with mSyncResult := sr3 }
    canDrawThisFrame := canDrawThisFrame
    ret := env.prepareTextures }

/-- Sanity-check bounds of `DrawFrameTask::run` (lines 144-145): 0.1 ms. -/
def kSanityCheckLowerBound : Int := 100000

/-- Sanity-check bound of `DrawFrameTask::run` (line 145): 10 s. -/
def kSanityCheckUpperBound : Int := 10000000000

/-- Hint-session block of `DrawFrameTask::run` (lines 143-161), as a function
of the snapshot values it reads.  `targetCpuTimePercentage` stands for the
process-wide `Properties::targetCpuTimePercentage` knob, whose definition is
outside these sources; the spec directs that it be injected as configuration.
Returns the task (with `mLastTargetWorkDuration` updated exactly when the
target callback fired) and the callback invocations. -/
def hintSession (t : DrawFrameTask) (targetCpuTimePercentage : Int)
    (syncDelayDuration dequeueBufferDuration frameDeadline intendedVsync frameStartTime
      now2 : Int) : DrawFrameTask × List Event :=
  if t.mUpdateTargetWorkDuration && t.mReportActualWorkDuration then
    let targetWorkDuration0 := frameDeadline - intendedVsync
    let targetWorkDuration := Int.tdiv (targetWorkDuration0 * targetCpuTimePercentage) 100
    let fireTarget :=
      kSanityCheckLowerBound < targetWorkDuration ∧
        targetWorkDuration < kSanityCheckUpperBound ∧
        targetWorkDuration ≠ t.mLastTargetWorkDuration
    let ta :=
      if fireTarget then
        ({ t with mLastTargetWorkDuration := targetWorkDuration },
          [Event.updateTargetWorkDuration targetWorkDuration])
      else (t, [])
    let frameDuration := now2 - frameStartTime
    let actualDuration :=
      frameDuration - min syncDelayDuration t.mLastDequeueBufferDuration -
        dequeueBufferDuration
    let actualEvents :=
      if kSanityCheckLowerBound < actualDuration ∧ actualDuration < kSanityCheckUpperBound then
        [Event.reportActualWorkDuration actualDuration]
      else []
    (ta.1, ta.2 ++ actualEvents)
  else (t, [])

/-- `DrawFrameTask::run` (lines 92-163).  `env.now1` is the `systemTime`
reading of line 95 and `env.now2` the one of line 154.  Producing the updated
task state and the trace of external effects:
sync, frame-complete handoff, early release (when `syncFrameState` returned
true), frame-work enqueue, draw or fence wait, fallback release, hint-session
reporting, and the unconditional persist of the measured dequeue-buffer
duration. -/
def run (t : DrawFrameTask) (env : Env) (targetCpuTimePercentage : Int) :
    DrawFrameTask × List Event :=
  let syncDelayDuration := env.now1 - t.mSyncQueued
  let so := syncFrameState t env
  let canUnblockUiThread := so.ret
  let canDrawThisFrame := so.canDrawThisFrame
  let completeEvents :=
    if so.task.mFrameCompleteCallback then [Event.addFrameCompleteListener] else []
  let t1 : DrawFrameTask := { so.task with mFrameCompleteCallback := false }
  let callback := t1.mFrameCallback
  let t2 : DrawFrameTask := { t1 with mFrameCallback := false }
  let intendedVsync := t2.mFrameInfo.intendedVsync
  let frameDeadline := t2.mFrameInfo.frameDeadline
  let frameStartTime := t2.mFrameInfo.frameStartTime
  let earlyRelease := if canUnblockUiThread then [Event.unblockUiThread] else []
  let enqueueEvents := if callback then [Event.enqueueFrameWork] else []
  let drawStep :=
    if canDrawThisFrame then (env.drawDuration, [Event.draw])
    else ((0 : Int), [Event.waitOnFences])
  let dequeueBufferDuration := drawStep.1
  let lateRelease := if !canUnblockUiThread then [Event.unblockUiThread] else []
  let hint :=
    hintSession t2 targetCpuTimePercentage syncDelayDuration dequeueBufferDuration
      frameDeadline intendedVsync frameStartTime env.now2
  let t3 : DrawFrameTask := { hint.1 with mLastDequeueBufferDuration := dequeueBufferDuration }
  (t3, completeEvents ++ earlyRelease ++ enqueueEvents ++ drawStep.2 ++ lateRelease ++ hint.2)

/-- `DrawFrameTask::drawFrame` (lines 76-84) together with `postAndWait` and
the render-thread execution of `run`: abort (`none`) when no context is
installed, otherwise reset `mSyncResult` to `OK`, stamp `mSyncQueued`
(`env.now0`), run, and hand the accumulated `mSyncResult` back to the
producer.  `fi` is the frame info the producer wrote into `mFrameInfo`
before the call (done by the caller in the surrounding sources).
`mSyncResult` is not written after the sync phase, so the value the producer
reads after being released equals the post-run one. -/
def drawFrame (t : DrawFrameTask) (fi : FrameInfo) (env : Env)
    (targetCpuTimePercentage : Int) : Option (Nat × DrawFrameTask × List Event) :=
  if t.mContext = false then none
  else
    let t1 : DrawFrameTask :=
      { t with mFrameInfo := fi, mSyncResult := SyncResult.OK, mSyncQueued := env.now0 }
    let r := run t1 env targetCpuTimePercentage
    some (r.1.mSyncResult, r.1, r.2)

section Helpers

/-! Projection and trace lemmas about `hintSession`, `syncFrameState` and
`run`, shared by the claim theorems below. -/

theorem hintSession_mSyncResult (t : DrawFrameTask) (pct a b c d e f : Int) :
    (hintSession t pct a b c d e f).1.mSyncResult = t.mSyncResult := by
  unfold hintSession
  split
  · dsimp only
    split <;> rfl
  · rfl

theorem hintSession_mLastDequeue (t : DrawFrameTask) (pct a b c d e f : Int) :
    (hintSession t pct a b c d e f).1.mLastDequeueBufferDuration =
      t.mLastDequeueBufferDuration := by
  unfold hintSession
  split
  · dsimp only
    split <;> rfl
  · rfl

theorem hintSession_mContext (t : DrawFrameTask) (pct a b c d e f : Int) :
    (hintSession t pct a b c d e f).1.mContext = t.mContext := by
  unfold hintSession
  split
  · dsimp only
    split <;> rfl
  · rfl

theorem hintSession_mUpdate (t : DrawFrameTask) (pct a b c d e f : Int) :
    (hintSession t pct a b c d e f).1.mUpdateTargetWorkDuration =
      t.mUpdateTargetWorkDuration := by
  unfold hintSession
  split
  · dsimp only
    split <;> rfl
  · rfl

theorem hintSession_mReport (t : DrawFrameTask) (pct a b c d e f : Int) :
    (hintSession t pct a b c d e f).1.mReportActualWorkDuration =
      t.mReportActualWorkDuration := by
  unfold hintSession
  split
  · dsimp only
    split <;> rfl
  · rfl

theorem hintSession_mLastTarget (t : DrawFrameTask) (pct a b c d e f : Int) :
    (hintSession t pct a b c d e f).1.mLastTargetWorkDuration =
      (if (t.mUpdateTargetWorkDuration && t.mReportActualWorkDuration) = true then
        (if kSanityCheckLowerBound < Int.tdiv ((c - d) * pct) 100 ∧
            Int.tdiv ((c - d) * pct) 100 < kSanityCheckUpperBound ∧
            Int.tdiv ((c - d) * pct) 100 ≠ t.mLastTargetWorkDuration then
          Int.tdiv ((c - d) * pct) 100
        else t.mLastTargetWorkDuration)
      else t.mLastTargetWorkDuration) := by
  unfold hintSession
  split
  · dsimp only
    split <;> rfl
  · rfl

theorem hintSession_countP_unblock (t : DrawFrameTask) (pct a b c d e f : Int) :
    (hintSession t pct a b c d e f).2.countP Event.isUnblock = 0 := by
  unfold hintSession
  split
  · dsimp only
    split <;> split <;> rfl
  · rfl

theorem hintSession_countP_drawOrWait (t : DrawFrameTask) (pct a b c d e f : Int) :
    (hintSession t pct a b c d e f).2.countP Event.isDrawOrWait = 0 := by
  unfold hintSession
  split
  · dsimp only
    split <;> split <;> rfl
  · rfl

theorem hintSession_draw_not_mem (t : DrawFrameTask) (pct a b c d e f : Int) :
    Event.draw ∉ (hintSession t pct a b c d e f).2 := by
  unfold hintSession
  split
  · dsimp only
    split <;> split <;> simp
  · simp

theorem hintSession_wait_not_mem (t : DrawFrameTask) (pct a b c d e f : Int) :
    Event.waitOnFences ∉ (hintSession t pct a b c d e f).2 := by
  unfold hintSession
  split
  · dsimp only
    split <;> split <;> simp
  · simp

theorem hintSession_update_mem (t : DrawFrameTask) (pct a b c d e f v : Int) :
    (Event.updateTargetWorkDuration v ∈ (hintSession t pct a b c d e f).2) ↔
      ((t.mUpdateTargetWorkDuration && t.mReportActualWorkDuration) = true ∧
        v = Int.tdiv ((c - d) * pct) 100 ∧
        kSanityCheckLowerBound < Int.tdiv ((c - d) * pct) 100 ∧
        Int.tdiv ((c - d) * pct) 100 < kSanityCheckUpperBound ∧
        Int.tdiv ((c - d) * pct) 100 ≠ t.mLastTargetWorkDuration) := by
  unfold hintSession
  split <;> rename_i hcb
  · dsimp only
    split <;> rename_i hf <;> split <;> rename_i ha <;> simp_all <;>
      exact fun _ => hf
  · simp_all

theorem hintSession_report_mem (t : DrawFrameTask) (pct a b c d e f v : Int) :
    (Event.reportActualWorkDuration v ∈ (hintSession t pct a b c d e f).2) ↔
      ((t.mUpdateTargetWorkDuration && t.mReportActualWorkDuration) = true ∧
        v = (f - e) - min a t.mLastDequeueBufferDuration - b ∧
        kSanityCheckLowerBound < (f - e) - min a t.mLastDequeueBufferDuration - b ∧
        (f - e) - min a t.mLastDequeueBufferDuration - b < kSanityCheckUpperBound) := by
  unfold hintSession
  split <;> rename_i hcb
  · dsimp only
    split <;> rename_i hf <;> split <;> rename_i ha <;> simp_all
  · simp_all

theorem syncFrameState_mUpdate (t : DrawFrameTask) (env : Env) :
    (syncFrameState t env).task.mUpdateTargetWorkDuration = t.mUpdateTargetWorkDuration := rfl

theorem syncFrameState_mReport (t : DrawFrameTask) (env : Env) :
    (syncFrameState t env).task.mReportActualWorkDuration = t.mReportActualWorkDuration := rfl

theorem syncFrameState_mLastTarget (t : DrawFrameTask) (env : Env) :
    (syncFrameState t env).task.mLastTargetWorkDuration = t.mLastTargetWorkDuration := rfl

theorem syncFrameState_mLastDequeue (t : DrawFrameTask) (env : Env) :
    (syncFrameState t env).task.mLastDequeueBufferDuration = t.mLastDequeueBufferDuration := rfl

theorem syncFrameState_mFrameInfo (t : DrawFrameTask) (env : Env) :
    (syncFrameState t env).task.mFrameInfo = t.mFrameInfo := rfl

theorem syncFrameState_mSyncQueued (t : DrawFrameTask) (env : Env) :
    (syncFrameState t env).task.mSyncQueued = t.mSyncQueued := rfl

theorem syncFrameState_mContext (t : DrawFrameTask) (env : Env) :
    (syncFrameState t env).task.mContext = t.mContext := rfl

theorem syncFrameState_mFrameCallback (t : DrawFrameTask) (env : Env) :
    (syncFrameState t env).task.mFrameCallback = t.mFrameCallback := rfl

theorem syncFrameState_mFrameCompleteCallback (t : DrawFrameTask) (env : Env) :
    (syncFrameState t env).task.mFrameCompleteCallback = t.mFrameCompleteCallback := rfl

theorem syncFrameState_mLayers (t : DrawFrameTask) (env : Env) :
    (syncFrameState t env).task.mLayers = [] := rfl

theorem syncFrameState_ret (t : DrawFrameTask) (env : Env) :
    (syncFrameState t env).ret = env.prepareTextures := rfl

theorem syncFrameState_canDraw (t : DrawFrameTask) (env : Env) :
    (syncFrameState t env).canDrawThisFrame =
      (if !env.hasSurface || !env.makeCurrentOk then false else env.prepareCanDraw) := by
  unfold syncFrameState
  dsimp only
  split
  · split <;> rfl
  · rfl

theorem run_mSyncResult (t : DrawFrameTask) (env : Env) (pct : Int) :
    (run t env pct).1.mSyncResult = (syncFrameState t env).task.mSyncResult := by
  unfold run
  dsimp only
  rw [hintSession_mSyncResult]

theorem run_mLastDequeue (t : DrawFrameTask) (env : Env) (pct : Int) :
    (run t env pct).1.mLastDequeueBufferDuration =
      (if (syncFrameState t env).canDrawThisFrame then env.drawDuration else 0) := by
  unfold run
  dsimp only
  split <;> rfl

theorem run_mContext (t : DrawFrameTask) (env : Env) (pct : Int) :
    (run t env pct).1.mContext = t.mContext := by
  unfold run
  dsimp only
  rw [hintSession_mContext]
  exact syncFrameState_mContext t env

theorem run_mUpdate (t : DrawFrameTask) (env : Env) (pct : Int) :
    (run t env pct).1.mUpdateTargetWorkDuration = t.mUpdateTargetWorkDuration := by
  unfold run
  dsimp only
  rw [hintSession_mUpdate]
  exact syncFrameState_mUpdate t env

theorem run_mReport (t : DrawFrameTask) (env : Env) (pct : Int) :
    (run t env pct).1.mReportActualWorkDuration = t.mReportActualWorkDuration := by
  unfold run
  dsimp only
  rw [hintSession_mReport]
  exact syncFrameState_mReport t env

theorem run_mLastTarget (t : DrawFrameTask) (env : Env) (pct : Int) :
    (run t env pct).1.mLastTargetWorkDuration =
      (if (t.mUpdateTargetWorkDuration && t.mReportActualWorkDuration) = true then
        (if kSanityCheckLowerBound <
              Int.tdiv ((t.mFrameInfo.frameDeadline - t.mFrameInfo.intendedVsync) * pct) 100 ∧
            Int.tdiv ((t.mFrameInfo.frameDeadline - t.mFrameInfo.intendedVsync) * pct) 100 <
              kSanityCheckUpperBound ∧
            Int.tdiv ((t.mFrameInfo.frameDeadline - t.mFrameInfo.intendedVsync) * pct) 100 ≠
              t.mLastTargetWorkDuration then
          Int.tdiv ((t.mFrameInfo.frameDeadline - t.mFrameInfo.intendedVsync) * pct) 100
        else t.mLastTargetWorkDuration)
      else t.mLastTargetWorkDuration) := by
  unfold run
  dsimp only
  rw [hintSession_mLastTarget]
  dsimp only
  simp only [syncFrameState_mUpdate, syncFrameState_mReport,
    syncFrameState_mLastTarget, syncFrameState_mFrameInfo]

theorem run_update_mem (t : DrawFrameTask) (env : Env) (pct v : Int) :
    (Event.updateTargetWorkDuration v ∈ (run t env pct).2) ↔
      ((t.mUpdateTargetWorkDuration && t.mReportActualWorkDuration) = true ∧
        v = Int.tdiv ((t.mFrameInfo.frameDeadline - t.mFrameInfo.intendedVsync) * pct) 100 ∧
        kSanityCheckLowerBound <
          Int.tdiv ((t.mFrameInfo.frameDeadline - t.mFrameInfo.intendedVsync) * pct) 100 ∧
        Int.tdiv ((t.mFrameInfo.frameDeadline - t.mFrameInfo.intendedVsync) * pct) 100 <
          kSanityCheckUpperBound ∧
        Int.tdiv ((t.mFrameInfo.frameDeadline - t.mFrameInfo.intendedVsync) * pct) 100 ≠
          t.mLastTargetWorkDuration) := by
  rcases t with ⟨rt, ctx, tn, ly, cbs, sr, sq, fi, fcb, fcc, ut, ra, lt, ld⟩
  rcases env with ⟨hs, mc, pcd, ha, ru, pt, dd, n0, n1, n2⟩
  cases pt <;> cases fcb <;> cases fcc <;> cases hs <;> cases mc <;> cases pcd <;>
    simp [run, syncFrameState, List.mem_append, hintSession_update_mem]

theorem run_report_mem (t : DrawFrameTask) (env : Env) (pct v : Int) :
    (Event.reportActualWorkDuration v ∈ (run t env pct).2) ↔
      ((t.mUpdateTargetWorkDuration && t.mReportActualWorkDuration) = true ∧
        v = (env.now2 - t.mFrameInfo.frameStartTime) -
            min (env.now1 - t.mSyncQueued) t.mLastDequeueBufferDuration -
            (if (syncFrameState t env).canDrawThisFrame then env.drawDuration else 0) ∧
        kSanityCheckLowerBound <
          (env.now2 - t.mFrameInfo.frameStartTime) -
            min (env.now1 - t.mSyncQueued) t.mLastDequeueBufferDuration -
            (if (syncFrameState t env).canDrawThisFrame then env.drawDuration else 0) ∧
        (env.now2 - t.mFrameInfo.frameStartTime) -
            min (env.now1 - t.mSyncQueued) t.mLastDequeueBufferDuration -
            (if (syncFrameState t env).canDrawThisFrame then env.drawDuration else 0) <
          kSanityCheckUpperBound) := by
  rcases t with ⟨rt, ctx, tn, ly, cbs, sr, sq, fi, fcb, fcc, ut, ra, lt, ld⟩
  rcases env with ⟨hs, mc, pcd, ha, ru, pt, dd, n0, n1, n2⟩
  cases pt <;> cases fcb <;> cases fcc <;> cases hs <;> cases mc <;> cases pcd <;>
    simp [run, syncFrameState, List.mem_append, hintSession_report_mem]

theorem run_draw_mem (t : DrawFrameTask) (env : Env) (pct : Int) :
    (Event.draw ∈ (run t env pct).2) ↔ (syncFrameState t env).canDrawThisFrame = true := by
  rcases t with ⟨rt, ctx, tn, ly, cbs, sr, sq, fi, fcb, fcc, ut, ra, lt, ld⟩
  rcases env with ⟨hs, mc, pcd, ha, ru, pt, dd, n0, n1, n2⟩
  cases pt <;> cases fcb <;> cases fcc <;> cases hs <;> cases mc <;> cases pcd <;>
    simp [run, syncFrameState, List.mem_append, hintSession_draw_not_mem]

theorem run_wait_mem (t : DrawFrameTask) (env : Env) (pct : Int) :
    (Event.waitOnFences ∈ (run t env pct).2) ↔
      (syncFrameState t env).canDrawThisFrame = false := by
  rcases t with ⟨rt, ctx, tn, ly, cbs, sr, sq, fi, fcb, fcc, ut, ra, lt, ld⟩
  rcases env with ⟨hs, mc, pcd, ha, ru, pt, dd, n0, n1, n2⟩
  cases pt <;> cases fcb <;> cases fcc <;> cases hs <;> cases mc <;> cases pcd <;>
    simp [run, syncFrameState, List.mem_append, hintSession_wait_not_mem]

end Helpers

theorem syncFrameState_uiRedraw_bit (t : DrawFrameTask) (env : Env)
    (h0 : t.mSyncResult = SyncResult.OK) :
    SyncResult.hasFlag (syncFrameState t env).task.mSyncResult SyncResult.UIRedrawRequired =
      (env.hasAnimations && env.requiresUiRedraw) := by
  rcases env with ⟨hs, mc, pcd, ha, ru, pt, dd, n0, n1, n2⟩
  cases hs <;> cases mc <;> cases pcd <;> cases ha <;> cases ru <;>
    simp_all [syncFrameState, SyncResult.hasFlag, SyncResult.OK,
      SyncResult.UIRedrawRequired, SyncResult.LostSurfaceRewardIfFound,
      SyncResult.ContextIsStopped, SyncResult.FrameDropped]

/-- C1: in every `run` (one per `drawFrame`), the producer-release signal is
sent exactly once — the trace holds exactly one `unblockUiThread` event and
exactly one draw-or-fence-wait step — and the release precedes the
draw-or-wait step precisely when `syncFrameState` returned true (the prefix
of the trace before that step holds the one release exactly then; otherwise
the single release sits after the draw/fence-wait). -/
theorem run_release_exactly_once (t : DrawFrameTask) (env : Env) (pct : Int) :
    ((run t env pct).2.countP Event.isUnblock = 1) ∧
    ((run t env pct).2.countP Event.isDrawOrWait = 1) ∧
    (((run t env pct).2.takeWhile (fun e => !(Event.isDrawOrWait e))).countP
        Event.isUnblock = if (syncFrameState t env).ret = true then 1 else 0) := by
  rcases t with ⟨rt, ctx, tn, ly, cbs, sr, sq, fi, fcb, fcc, ut, ra, lt, ld⟩
  rcases env with ⟨hs, mc, pcd, ha, ru, pt, dd, n0, n1, n2⟩
  cases pt <;> cases fcb <;> cases fcc <;> cases hs <;> cases mc <;> cases pcd <;>
    simp [run, syncFrameState, List.countP_append, List.countP_cons,
      Event.isUnblock, Event.isDrawOrWait, hintSession_countP_unblock,
      hintSession_countP_drawOrWait, List.takeWhile]

/-- C2: drawability-failure flags in one sync pass starting from a reset
result (which `drawFrame` guarantees): no surface adds
`LostSurfaceRewardIfFound` and not `ContextIsStopped`; a surface with a
failed `makeCurrent` adds `ContextIsStopped` and not
`LostSurfaceRewardIfFound`; either way the frame is marked not drawable, and
a non-drawable frame always carries `FrameDropped`. -/
theorem syncFrameState_failure_flags (t : DrawFrameTask) (env : Env)
    (h0 : t.mSyncResult = SyncResult.OK) :
    (env.hasSurface = false →
      SyncResult.hasFlag (syncFrameState t env).task.mSyncResult
          SyncResult.LostSurfaceRewardIfFound = true ∧
      SyncResult.hasFlag (syncFrameState t env).task.mSyncResult
          SyncResult.ContextIsStopped = false ∧
      (syncFrameState t env).canDrawThisFrame = false) ∧
    (env.hasSurface = true → env.makeCurrentOk = false →
      SyncResult.hasFlag (syncFrameState t env).task.mSyncResult
          SyncResult.ContextIsStopped = true ∧
      SyncResult.hasFlag (syncFrameState t env).task.mSyncResult
          SyncResult.LostSurfaceRewardIfFound = false ∧
      (syncFrameState t env).canDrawThisFrame = false) ∧
    ((syncFrameState t env).canDrawThisFrame = false →
      SyncResult.hasFlag (syncFrameState t env).task.mSyncResult
          SyncResult.FrameDropped = true) := by
  rcases env with ⟨hs, mc, pcd, ha, ru, pt, dd, n0, n1, n2⟩
  cases hs <;> cases mc <;> cases pcd <;> cases ha <;> cases ru <;>
    simp_all [syncFrameState, SyncResult.hasFlag, SyncResult.OK,
      SyncResult.UIRedrawRequired, SyncResult.LostSurfaceRewardIfFound,
      SyncResult.ContextIsStopped, SyncResult.FrameDropped] <;> decide

theorem syncFrameState_failure_flags_witness :
    SyncResult.hasFlag
        (syncFrameState DrawFrameTask.init
            { hasSurface := false, makeCurrentOk := true, prepareCanDraw := true,
              hasAnimations := false, requiresUiRedraw := false, prepareTextures := true,
              drawDuration := 5, now0 := 0, now1 := 1, now2 := 2 }).task.mSyncResult
        SyncResult.LostSurfaceRewardIfFound = true :=
  ((syncFrameState_failure_flags DrawFrameTask.init
      { hasSurface := false, makeCurrentOk := true, prepareCanDraw := true,
        hasAnimations := false, requiresUiRedraw := false, prepareTextures := true,
        drawDuration := 5, now0 := 0, now1 := 1, now2 := 2 } rfl).1 rfl).1

/-- C3: with both hint-session callbacks installed, the target work duration
`(frameDeadline - intendedVsync) * targetCpuTimePercentage / 100` is
forwarded to the `updateTarget` callback exactly when it is strictly above
100000 ns, strictly below 10000000000 ns and differs from the last forwarded
target — and no other value is ever forwarded; the persisted last-target
value is updated exactly when the callback fires. -/
theorem run_target_forwarding (t : DrawFrameTask) (env : Env) (pct : Int)
    (hu : t.mUpdateTargetWorkDuration = true)
    (hr : t.mReportActualWorkDuration = true) :
    (∀ v, (Event.updateTargetWorkDuration v ∈ (run t env pct).2) ↔
      (v = Int.tdiv ((t.mFrameInfo.frameDeadline - t.mFrameInfo.intendedVsync) * pct) 100 ∧
        kSanityCheckLowerBound <
          Int.tdiv ((t.mFrameInfo.frameDeadline - t.mFrameInfo.intendedVsync) * pct) 100 ∧
        Int.tdiv ((t.mFrameInfo.frameDeadline - t.mFrameInfo.intendedVsync) * pct) 100 <
          kSanityCheckUpperBound ∧
        Int.tdiv ((t.mFrameInfo.frameDeadline - t.mFrameInfo.intendedVsync) * pct) 100 ≠
          t.mLastTargetWorkDuration)) ∧
    ((run t env pct).1.mLastTargetWorkDuration =
      (if kSanityCheckLowerBound <
            Int.tdiv ((t.mFrameInfo.frameDeadline - t.mFrameInfo.intendedVsync) * pct) 100 ∧
          Int.tdiv ((t.mFrameInfo.frameDeadline - t.mFrameInfo.intendedVsync) * pct) 100 <
            kSanityCheckUpperBound ∧
          Int.tdiv ((t.mFrameInfo.frameDeadline - t.mFrameInfo.intendedVsync) * pct) 100 ≠
            t.mLastTargetWorkDuration then
        Int.tdiv ((t.mFrameInfo.frameDeadline - t.mFrameInfo.intendedVsync) * pct) 100
      else t.mLastTargetWorkDuration)) := by
  constructor
  · intro v
    rw [run_update_mem, hu, hr]
    simp
  · rw [run_mLastTarget, hu, hr]
    simp

theorem run_target_forwarding_witness :
    Event.updateTargetWorkDuration 11620000 ∈
      (run { DrawFrameTask.init with
              mContext := true
              mUpdateTargetWorkDuration := true
              mReportActualWorkDuration := true
              mFrameInfo := ⟨0, 0, 16600000, 0, 0, 0⟩ }
          { hasSurface := true, makeCurrentOk := true, prepareCanDraw := true,
            hasAnimations := false, requiresUiRedraw := false, prepareTextures := true,
            drawDuration := 5, now0 := 0, now1 := 0, now2 := 1000000 } 70).2 :=
  (((run_target_forwarding { DrawFrameTask.init with
        mContext := true
        mUpdateTargetWorkDuration := true
        mReportActualWorkDuration := true
        mFrameInfo := ⟨0, 0, 16600000, 0, 0, 0⟩ }
      { hasSurface := true, makeCurrentOk := true, prepareCanDraw := true,
        hasAnimations := false, requiresUiRedraw := false, prepareTextures := true,
        drawDuration := 5, now0 := 0, now1 := 0, now2 := 1000000 } 70 rfl rfl).1
    11620000).mpr (by refine ⟨by decide, by decide, by decide, by decide⟩))

/-- C4: with both hint-session callbacks installed, the actual work duration
`(now - frameStartTime) - min(queuingDelay, previous frame's dequeue-buffer
duration) - this frame's dequeue-buffer duration` (zero dequeue duration for
a skipped frame) is forwarded to the `reportActual` callback exactly when it
lies strictly between 100000 ns and 10000000000 ns, and no other value is
ever forwarded: out-of-bounds values are silently suppressed. -/
theorem run_actual_forwarding (t : DrawFrameTask) (env : Env) (pct : Int)
    (hu : t.mUpdateTargetWorkDuration = true)
    (hr : t.mReportActualWorkDuration = true) :
    ∀ v, (Event.reportActualWorkDuration v ∈ (run t env pct).2) ↔
      (v = (env.now2 - t.mFrameInfo.frameStartTime) -
            min (env.now1 - t.mSyncQueued) t.mLastDequeueBufferDuration -
            (if (syncFrameState t env).canDrawThisFrame then env.drawDuration else 0) ∧
        kSanityCheckLowerBound <
          (env.now2 - t.mFrameInfo.frameStartTime) -
            min (env.now1 - t.mSyncQueued) t.mLastDequeueBufferDuration -
            (if (syncFrameState t env).canDrawThisFrame then env.drawDuration else 0) ∧
        (env.now2 - t.mFrameInfo.frameStartTime) -
            min (env.now1 - t.mSyncQueued) t.mLastDequeueBufferDuration -
            (if (syncFrameState t env).canDrawThisFrame then env.drawDuration else 0) <
          kSanityCheckUpperBound) := by
  intro v
  rw [run_report_mem, hu, hr]
  simp

theorem run_actual_forwarding_witness :
    Event.reportActualWorkDuration 999995 ∈
      (run { DrawFrameTask.init with
              mContext := true
              mUpdateTargetWorkDuration := true
              mReportActualWorkDuration := true
              mFrameInfo := ⟨0, 0, 16600000, 0, 0, 0⟩ }
          { hasSurface := true, makeCurrentOk := true, prepareCanDraw := true,
            hasAnimations := false, requiresUiRedraw := false, prepareTextures := true,
            drawDuration := 5, now0 := 0, now1 := 0, now2 := 1000000 } 70).2 :=
  ((run_actual_forwarding { DrawFrameTask.init with
        mContext := true
        mUpdateTargetWorkDuration := true
        mReportActualWorkDuration := true
        mFrameInfo := ⟨0, 0, 16600000, 0, 0, 0⟩ }
      { hasSurface := true, makeCurrentOk := true, prepareCanDraw := true,
        hasAnimations := false, requiresUiRedraw := false, prepareTextures := true,
        drawDuration := 5, now0 := 0, now1 := 0, now2 := 1000000 } 70 rfl rfl)
    999995).mpr (by refine ⟨by decide, by decide, by decide⟩)

/-- C9: `drawFrame` resets the sync result to `OK` before the sync pass, so
the bitmask handed back to the producer contains `UIRedrawRequired` exactly
when tree preparation reported both `hasAnimations` and `requiresUiRedraw`
during that invocation's sync. -/
theorem drawFrame_uiRedraw_iff (t : DrawFrameTask) (fi : FrameInfo) (env : Env)
    (pct : Int) (hc : t.mContext = true) :
    (drawFrame t fi env pct).map
        (fun r => SyncResult.hasFlag r.1 SyncResult.UIRedrawRequired) =
      some (env.hasAnimations && env.requiresUiRedraw) := by
  simp only [drawFrame, hc, Bool.true_eq_false, if_false, run_mSyncResult,
    Option.map_some']
  exact congrArg some (syncFrameState_uiRedraw_bit _ env rfl)

theorem drawFrame_uiRedraw_iff_witness :
    (drawFrame { DrawFrameTask.init with mContext := true } ⟨0, 0, 0, 0, 0, 0⟩
        { hasSurface := true, makeCurrentOk := true, prepareCanDraw := true,
          hasAnimations := true, requiresUiRedraw := true, prepareTextures := true,
          drawDuration := 5, now0 := 0, now1 := 1, now2 := 2 } 70).map
      (fun r => SyncResult.hasFlag r.1 SyncResult.UIRedrawRequired) = some true :=
  drawFrame_uiRedraw_iff { DrawFrameTask.init with mContext := true } ⟨0, 0, 0, 0, 0, 0⟩
    { hasSurface := true, makeCurrentOk := true, prepareCanDraw := true,
      hasAnimations := true, requiresUiRedraw := true, prepareTextures := true,
      drawDuration := 5, now0 := 0, now1 := 1, now2 := 2 } 70 rfl

/-- C10: after every `run`, the persisted `mLastDequeueBufferDuration` equals
the dequeue-buffer duration measured in that run — `draw()`'s report when
the frame was drawable, zero for a skipped frame — for every task state, in
particular whether or not the hint-session callback slots are filled:
installing callbacks changes only what is forwarded, never this update. -/
theorem run_persists_dequeue_duration (t : DrawFrameTask) (env : Env) (pct : Int) :
    (run t env pct).1.mLastDequeueBufferDuration =
      (if (syncFrameState t env).canDrawThisFrame then env.drawDuration else 0) :=
  run_mLastDequeue t env pct

/-- C5: in every run whose frame is not drawable, `draw` is not invoked and
`waitOnFences` is invoked instead, the dequeue-buffer duration is taken as
zero, and a second `drawFrame` issued on the resulting state computes its
reported actual duration with zero as the previous frame's dequeue-buffer
duration. -/
theorem run_skipped_frame (t : DrawFrameTask) (env env2 : Env) (fi2 : FrameInfo)
    (pct : Int) (hc : t.mContext = true)
    (hcd : (syncFrameState t env).canDrawThisFrame = false) :
    (Event.draw ∉ (run t env pct).2) ∧
    (Event.waitOnFences ∈ (run t env pct).2) ∧
    ((run t env pct).1.mLastDequeueBufferDuration = 0) ∧
    (∀ r2 t2 tr2, drawFrame (run t env pct).1 fi2 env2 pct = some (r2, t2, tr2) →
      ∀ v, Event.reportActualWorkDuration v ∈ tr2 →
        v = (env2.now2 - fi2.frameStartTime) - min (env2.now1 - env2.now0) 0 -
          (if (syncFrameState (run t env pct).1 env2).canDrawThisFrame then
            env2.drawDuration
          else 0)) := by
  have hdq : (run t env pct).1.mLastDequeueBufferDuration = 0 := by
    rw [run_mLastDequeue, hcd]
    simp
  refine ⟨?_, ?_, hdq, ?_⟩
  · rw [run_draw_mem, hcd]
    simp
  · rw [run_wait_mem]
    exact hcd
  · have hcx : (run t env pct).1.mContext = true := by
      rw [run_mContext]
      exact hc
    intro r2 t2 tr2 hdf v hv
    simp only [drawFrame, hcx, Bool.true_eq_false, if_false, Option.some.injEq,
      Prod.mk.injEq] at hdf
    obtain ⟨-, -, htr⟩ := hdf
    rw [← htr] at hv
    rw [run_report_mem] at hv
    obtain ⟨-, hveq, -, -⟩ := hv
    rw [hveq]
    dsimp only
    rw [hdq, syncFrameState_canDraw, syncFrameState_canDraw]

theorem run_skipped_frame_witness :
    Event.waitOnFences ∈
      (run { DrawFrameTask.init with mContext := true }
          { hasSurface := false, makeCurrentOk := true, prepareCanDraw := true,
            hasAnimations := false, requiresUiRedraw := false, prepareTextures := true,
            drawDuration := 5, now0 := 0, now1 := 1, now2 := 2 } 70).2 :=
  (run_skipped_frame { DrawFrameTask.init with mContext := true }
      { hasSurface := false, makeCurrentOk := true, prepareCanDraw := true,
        hasAnimations := false, requiresUiRedraw := false, prepareTextures := true,
        drawDuration := 5, now0 := 0, now1 := 1, now2 := 2 }
      { hasSurface := true, makeCurrentOk := true, prepareCanDraw := true,
        hasAnimations := false, requiresUiRedraw := false, prepareTextures := true,
        drawDuration := 5, now0 := 0, now1 := 1, now2 := 2 }
      ⟨0, 0, 0, 0, 0, 0⟩ 70 rfl (by decide)).2.1

theorem removeFirstMatch_eq_erase (l : List Nat) (x : Nat) :
    removeFirstMatch l x = l.erase x := by
  induction l with
  | nil => rfl
  | cons a as ih =>
    by_cases hax : a = x
    · simp [removeFirstMatch, List.erase_cons, hax]
    · simp [removeFirstMatch, List.erase_cons, hax, ih]

/-- C6: the layer-update queue never holds two entries with the same
identity: with a context installed and a duplicate-free queue, pushing an
already-present handle returns the task unchanged, any push preserves
freedom from duplicates, removal erases exactly the first matching entry
(Mathlib's `List.erase`, which removes at most one entry) and preserves
freedom from duplicates, and pushing the same handle twice onto an empty
queue and then removing it once leaves the queue empty. -/
theorem layer_queue_no_duplicates (t : DrawFrameTask) (h : Nat)
    (hc : t.mContext = true) (hnd : t.mLayers.Nodup) :
    (h ∈ t.mLayers → pushLayerUpdate t h = some t) ∧
    (∀ t', pushLayerUpdate t h = some t' → t'.mLayers.Nodup) ∧
    (∀ t', removeLayerUpdate t h = some t' →
      t'.mLayers = t.mLayers.erase h ∧ t'.mLayers.Nodup) ∧
    (t.mLayers = [] →
      (((pushLayerUpdate t h).bind (fun u => pushLayerUpdate u h)).bind
          (fun u => removeLayerUpdate u h)).map (fun u => u.mLayers) = some []) := by
  refine ⟨?_, ?_, ?_, ?_⟩
  · intro hm
    simp [pushLayerUpdate, hc, hm]
  · intro t' hp
    by_cases hm : h ∈ t.mLayers
    · simp [pushLayerUpdate, hc, hm] at hp
      rw [← hp]
      exact hnd
    · simp [pushLayerUpdate, hc, hm] at hp
      rw [← hp]
      simp [List.nodup_append, hnd, hm]
  · intro t' hrm
    simp only [removeLayerUpdate, Option.some.injEq] at hrm
    rw [← hrm]
    refine ⟨removeFirstMatch_eq_erase t.mLayers h, ?_⟩
    rw [removeFirstMatch_eq_erase]
    exact hnd.erase h
  · intro he
    simp [pushLayerUpdate, removeLayerUpdate, hc, he, removeFirstMatch]

theorem layer_queue_no_duplicates_witness :
    (((pushLayerUpdate { DrawFrameTask.init with mContext := true } 5).bind
        (fun u => pushLayerUpdate u 5)).bind (fun u => removeLayerUpdate u 5)).map
      (fun u => u.mLayers) = some [] :=
  (layer_queue_no_duplicates { DrawFrameTask.init with mContext := true } 5 rfl
    List.nodup_nil).2.2.2 rfl

/-- C7 counterexample: a sync pass in which the texture cache lacked room
(`prepareTextures = false`) while the surface and context were healthy.
`syncFrameState` returns false, yet the accumulated Sync Result stays `OK` —
no flag reports the texture-cache condition to the producer — and the
post-run task state is identical to the state produced with ample texture
room, so the return value is not carried forward to any later sync pass
through persisted state. -/
theorem syncFrameState_textureCache_not_flagged :
    ((syncFrameState { DrawFrameTask.init with mContext := true }
        { hasSurface := true, makeCurrentOk := true, prepareCanDraw := true,
          hasAnimations := false, requiresUiRedraw := false, prepareTextures := false,
          drawDuration := 7, now0 := 0, now1 := 1, now2 := 2 }).ret = false) ∧
    ((syncFrameState { DrawFrameTask.init with mContext := true }
        { hasSurface := true, makeCurrentOk := true, prepareCanDraw := true,
          hasAnimations := false, requiresUiRedraw := false, prepareTextures := false,
          drawDuration := 7, now0 := 0, now1 := 1, now2 := 2 }).task.mSyncResult =
      SyncResult.OK) ∧
    ((run { DrawFrameTask.init with mContext := true }
        { hasSurface := true, makeCurrentOk := true, prepareCanDraw := true,
          hasAnimations := false, requiresUiRedraw := false, prepareTextures := false,
          drawDuration := 7, now0 := 0, now1 := 1, now2 := 2 } 70).1 =
      (run { DrawFrameTask.init with mContext := true }
        { hasSurface := true, makeCurrentOk := true, prepareCanDraw := true,
          hasAnimations := false, requiresUiRedraw := false, prepareTextures := true,
          drawDuration := 7, now0 := 0, now1 := 1, now2 := 2 } 70).1) :=
  ⟨rfl, rfl, by decide⟩

/-- C7 amended: when the texture cache lacks room, `syncFrameState` returns
false (it returns `info.prepareTextures`); no Sync Result flag reports that
condition and neither the sync-pass state nor the post-run task state
depends on it, so nothing is carried forward to the next sync pass; the
return value's only effect is within the current run, deciding whether the
producer is released before the draw/fence-wait step (early) or after it. -/
theorem syncFrameState_prepareTextures_effect (t : DrawFrameTask) (env : Env)
    (pct : Int) (b : Bool) :
    ((syncFrameState t env).ret = env.prepareTextures) ∧
    ((syncFrameState t { env with prepareTextures := b }).task =
      (syncFrameState t env).task) ∧
    ((syncFrameState t { env with prepareTextures := b }).canDrawThisFrame =
      (syncFrameState t env).canDrawThisFrame) ∧
    ((run t { env with prepareTextures := b } pct).1 = (run t env pct).1) ∧
    (((run t env pct).2.takeWhile (fun e => !(Event.isDrawOrWait e))).countP
        Event.isUnblock = if env.prepareTextures = true then 1 else 0) := by
  refine ⟨rfl, rfl, rfl, rfl, ?_⟩
  rcases t with ⟨rt, ctx, tn, ly, cbs, sr, sq, fi, fcb, fcc, ut, ra, lt, ld⟩
  rcases env with ⟨hs, mc, pcd, ha, ru, pt, dd, n0, n1, n2⟩
  cases pt <;> cases fcb <;> cases fcc <;> cases hs <;> cases mc <;> cases pcd <;>
    simp [run, syncFrameState, List.countP_append, List.countP_cons,
      Event.isUnblock, Event.isDrawOrWait, hintSession_countP_unblock,
      hintSession_countP_drawOrWait, List.takeWhile]

/-- C8 counterexample: `removeLayerUpdate` called on a freshly constructed
task, before any `setContext`, does not take a fatal path — it completes
normally and returns the task unchanged — contradicting the claim that every
such call aborts the process. -/
theorem removeLayerUpdate_no_fatal_check :
    removeLayerUpdate DrawFrameTask.init 1 = some DrawFrameTask.init := rfl

/-- C8 amended: calling `pushLayerUpdate` before a context is installed, or
`drawFrame` with no context, is fatal — the process aborts at once and no
mutated state is produced; `removeLayerUpdate`, however, performs no context
check in the source and never aborts. -/
theorem lifecycle_fatal_checks (t : DrawFrameTask) (fi : FrameInfo) (env : Env)
    (pct : Int) (layer : Nat) (hnc : t.mContext = false) :
    pushLayerUpdate t layer = none ∧
    drawFrame t fi env pct = none ∧
    (removeLayerUpdate t layer).isSome = true := by
  refine ⟨?_, ?_, rfl⟩ <;> simp [pushLayerUpdate, drawFrame, hnc]

theorem lifecycle_fatal_checks_witness :
    pushLayerUpdate DrawFrameTask.init 3 = none :=
  (lifecycle_fatal_checks DrawFrameTask.init ⟨0, 0, 0, 0, 0, 0⟩
      { hasSurface := true, makeCurrentOk := true, prepareCanDraw := true,
        hasAnimations := false, requiresUiRedraw := false, prepareTextures := true,
        drawDuration := 5, now0 := 0, now1 := 1, now2 := 2 } 70 3 rfl).1
